import Mathlib

/-!
# Verification of the libdicom in-memory data model (src/dicom-data.c)

A shallow embedding of the element / data-set / sequence / frame / BOT core.
Pure C functions become Lean functions; C functions that mutate their
arguments in place are modelled by returning the updated object alongside the
result.  `uint32_t` values are `Nat` with an explicit `% 2^32` where overflow
matters; `ssize_t` is `Int`.  Fallible functions return a success flag (or an
`Option`), and where a claim observes the `DcmError **` out-parameter the
function additionally returns the `Option DcmError` it would have written.

The VR dictionary (dicom-dict.c) and `dcm_parse_character_string` live outside
the translated source file; they are modelled from the spec where needed and
marked as such.
-/

/-- The DICOM value representations used by the core (a representative subset
of the closed enumeration; `uk` is the unknown sentinel `DCM_VR_uk`). -/
inductive DcmVR where
  | FL | FD | SS | SL | SV | US | UL | UV
  | PN | DS | LO | UI | SH | CS
  | ST | LT | UT
  | OB | OW | OF | UN
  | SQ
  | uk
deriving DecidableEq

/-- The VR classes (`DcmVRClass` in the C source). -/
inductive DcmVRClass where
  | NUMERIC | STRING_SINGLE | STRING_MULTI | BINARY | SEQUENCE | ERROR
deriving DecidableEq

/-- Modelled from the spec: `dcm_dict_vr_class` is part of the external VR
dictionary (§4.1); every VR belongs to exactly one class (§3).  The class
assignment follows the DICOM standard (PS3.5). -/
def dcm_dict_vr_class (vr : DcmVR) : DcmVRClass :=
  match vr with
  | .FL | .FD | .SS | .SL | .SV | .US | .UL | .UV => .NUMERIC
  | .PN | .DS | .LO | .UI | .SH | .CS => .STRING_MULTI
  | .ST | .LT | .UT => .STRING_SINGLE
  | .OB | .OW | .OF | .UN => .BINARY
  | .SQ => .SEQUENCE
  | .uk => .ERROR

/-- Modelled from the spec: `dcm_dict_vr_size` (bytes per scalar for NUMERIC
VRs, §4.1), per the DICOM standard. -/
def dcm_dict_vr_size (vr : DcmVR) : Nat :=
  match vr with
  | .SS | .US => 2
  | .SL | .UL | .FL => 4
  | .SV | .UV | .FD => 8
  | _ => 0

/-- Modelled from the spec: `dcm_dict_vr_capacity` (maximum byte length per
string value for STRING VRs, §4.1), per the DICOM standard. -/
def dcm_dict_vr_capacity (vr : DcmVR) : Nat :=
  match vr with
  | .PN | .LO | .UI => 64
  | .DS | .SH | .CS => 16
  | .ST => 1024
  | .LT => 10240
  | .UT => 4294967294
  | _ => 0

/-- Modelled from the spec: `dcm_dict_lookup_vr` maps a tag to its canonical
VR, or to the unknown sentinel (§4.1).  The table holds the standard DICOM
tags named by the spec plus a few further standard tags; note that the
standard tag (FFFC,FFFC) DataSetTrailingPadding has its group's high bit
set. -/
def dcm_dict_lookup_vr (tag : Nat) : DcmVR :=
  if tag = 0x00100010 then .PN        -- PatientName
  else if tag = 0x00280010 then .US   -- Rows
  else if tag = 0x00280030 then .DS   -- PixelSpacing
  else if tag = 0x00082218 then .SQ   -- AnatomicRegionSequence
  else if tag = 0x0020000D then .UI   -- StudyInstanceUID
  else if tag = 0x00080008 then .CS   -- ImageType
  else if tag = 0x00280011 then .US   -- Columns
  else if tag = 0x7FE00010 then .OB   -- PixelData
  else if tag = 0xFFFCFFFC then .OB   -- DataSetTrailingPadding
  else .uk

mutual

/-- The value payload of an element: the C `union` in `struct _DcmElement`,
made explicit as a sum indexed by shape.  The inline single-value numeric
slots of the C union are merged into one integer slot (`vInt`) and one
floating slot (`vFloat`); `vNone` is the all-zero state of a freshly
allocated element.  IEEE float narrowing is not modelled (no claim observes
stored float values), so `vFloat` carries the exact rational. -/
inductive DcmValue : Type where
  | vNone : DcmValue
  | vInt (v : Int) : DcmValue
  | vIntMulti (vs : List Int) : DcmValue
  | vFloat (v : Rat) : DcmValue
  | vStr (s : String) : DcmValue
  | vStrMulti (ss : List String) : DcmValue
  | vBytes (bytes : List Nat) : DcmValue
  | vSeq (sq : DcmSequence) : DcmValue

/-- `struct _DcmElement`: tag, VR, byte length, value multiplicity, the
write-once `assigned` flag, and the value payload.  The `value_pointer`
bookkeeping fields exist only for `free` and have no observable behaviour. -/
inductive DcmElement : Type where
  | mk (tag : Nat) (vr : DcmVR) (length : Nat) (vm : Nat)
       (assigned : Bool) (value : DcmValue) : DcmElement

/-- `struct _DcmSequence`: a `UT_array` of items (each an owned data set) and
a lock flag. -/
inductive DcmSequence : Type where
  | mk (items : List DcmDataSet) (is_locked : Bool) : DcmSequence

/-- `struct _DcmDataSet`: a uthash of elements keyed by tag, which also
preserves insertion order; modelled as the insertion-ordered element list,
plus the lock flag. -/
inductive DcmDataSet : Type where
  | mk (elements : List DcmElement) (is_locked : Bool) : DcmDataSet

end

namespace DcmElement

def tag : DcmElement → Nat
  | .mk t _ _ _ _ _ => t

def vr : DcmElement → DcmVR
  | .mk _ v _ _ _ _ => v

def length : DcmElement → Nat
  | .mk _ _ l _ _ _ => l

def vm : DcmElement → Nat
  | .mk _ _ _ m _ _ => m

def assigned : DcmElement → Bool
  | .mk _ _ _ _ a _ => a

def value : DcmElement → DcmValue
  | .mk _ _ _ _ _ v => v

def withLength : DcmElement → Nat → DcmElement
  | .mk t v _ m a val, l => .mk t v l m a val

def withVm : DcmElement → Nat → DcmElement
  | .mk t v l _ a val, m => .mk t v l m a val

def withAssigned : DcmElement → Bool → DcmElement
  | .mk t v l m _ val, a => .mk t v l m a val

def withValue : DcmElement → DcmValue → DcmElement
  | .mk t v l m a _, val => .mk t v l m a val

end DcmElement

namespace DcmSequence

def items : DcmSequence → List DcmDataSet
  | .mk i _ => i

def is_locked : DcmSequence → Bool
  | .mk _ l => l

def withItems : DcmSequence → List DcmDataSet → DcmSequence
  | .mk _ l, i => .mk i l

end DcmSequence

namespace DcmDataSet

def elements : DcmDataSet → List DcmElement
  | .mk e _ => e

def is_locked : DcmDataSet → Bool
  | .mk _ l => l

def withElements : DcmDataSet → List DcmElement → DcmDataSet
  | .mk _ l, e => .mk e l

end DcmDataSet

instance : Inhabited DcmValue := ⟨.vNone⟩
instance : Inhabited DcmElement := ⟨.mk 0 .uk 0 0 false .vNone⟩
instance : Inhabited DcmSequence := ⟨.mk [] false⟩
instance : Inhabited DcmDataSet := ⟨.mk [] false⟩

/-- The error codes of the core (`DcmErrorCode`), restricted to the two the
core raises. -/
inductive DcmErrorCode where
  | INVALID | NOMEM
deriving DecidableEq

/-- Modelled from the spec: `dcm_error_set` (dicom-error.c, outside this
source file) populates the caller's error object with code, summary and
detail (§6).  The printf-style formatting of the detail message is not
modelled; the detail field carries the format string. -/
structure DcmError where
  code : DcmErrorCode
  summary : String
  detail : String
deriving DecidableEq

-- ## Element helpers and validation

/-- C `strlen`: the byte length of a (UTF-8 encoded, NUL-free) value
string. -/
def strlen (s : String) : Nat := s.utf8ByteSize

/-- `element_set_length`: round an odd length up to even, and record it only
if no length has been set before (a nonzero length from the element header is
never overwritten). -/
def element_set_length (element : DcmElement) (length : Nat) : DcmElement :=
  let even_length := if length % 2 ≠ 0 then length + 1 else length
  if element.length = 0 then element.withLength even_length else element

/-- `dcm_element_create`: allocate a zeroed element, fix the VR from the
dictionary, record the provisional length; on an unknown VR the element is
destroyed and NULL is returned -- note that this failure path does not call
`dcm_error_set`, so the second component (the error the call writes) is
`none` on every path (allocation failure aside, which is not modelled). -/
def dcm_element_create (tag length : Nat) : Option DcmElement × Option DcmError :=
  let element : DcmElement := .mk tag (dcm_dict_lookup_vr tag) 0 0 false .vNone
  let element := element_set_length element length
  if element.vr = DcmVR.uk then
    (none, none)
  else
    (some element, none)

def element_check_index (element : DcmElement) (index : Nat) : Bool :=
  index < element.vm

def element_check_string (element : DcmElement) : Bool :=
  let klass := dcm_dict_vr_class element.vr
  klass = .STRING_MULTI ∨ klass = .STRING_SINGLE

def element_check_assigned (element : DcmElement) : Bool :=
  element.assigned

def element_check_not_assigned (element : DcmElement) : Bool :=
  !element.assigned

/-- `dcm_element_get_value_string`; the C union read of a payload that is not
a string (unreachable through the API) is modelled as failure. -/
def dcm_element_get_value_string (element : DcmElement) (index : Nat) :
    Option String :=
  if element_check_assigned element = false then none
  else if element_check_string element = false then none
  else if element_check_index element index = false then none
  else if element.vm = 1 then
    match element.value with
    | .vStr s => some s
    | _ => none
  else
    match element.value with
    | .vStrMulti ss => ss.get? index
    | _ => none

/-- `element_check_capacity`: every value string must fit the VR capacity.
The C code temporarily forces `assigned` on so that it can read the values
and restores it before returning; the model reads through a copy with
`assigned` forced on, which is observably the same. -/
def element_check_capacity (element : DcmElement) (capacity : Nat) : Bool :=
  (List.range element.vm).all fun i =>
    match dcm_element_get_value_string (element.withAssigned true) i with
    | some v => strlen v ≤ capacity
    | none => false

/-- `dcm_element_validate`: reject double assignment, a VR that differs from
the dictionary VR (or the ERROR class), a NUMERIC length mismatch, or an
oversized string value; on success mark the element assigned. -/
def dcm_element_validate (element : DcmElement) : Bool × DcmElement :=
  if element_check_not_assigned element = false then (false, element)
  else if element.vr ≠ dcm_dict_lookup_vr element.tag ∨
      dcm_dict_vr_class element.vr = .ERROR then (false, element)
  else if dcm_dict_vr_class element.vr = .NUMERIC ∧
      element.length ≠ element.vm * dcm_dict_vr_size element.vr then
    (false, element)
  else if (dcm_dict_vr_class element.vr = .STRING_MULTI ∨
      dcm_dict_vr_class element.vr = .STRING_SINGLE) ∧
      element_check_capacity element (dcm_dict_vr_capacity element.vr) = false then
    (false, element)
  else
    (true, element.withAssigned true)

-- ## String setters

/-- `dcm_element_set_value_string_multi`.  The C array argument carries `vm`
strings; reading past the end of a shorter caller array is unrepresentable,
so the model truncates with `take`.  `steal` only transfers `free`
responsibility and has no observable effect. -/
def dcm_element_set_value_string_multi (element : DcmElement)
    (values : List String) (vm : Nat) (steal : Bool) : Bool × DcmElement :=
  if element_check_not_assigned element = false then (false, element)
  else if element_check_string element = false then (false, element)
  else
    let assignedValue : Option DcmElement :=
      if vm = 1 then
        some ((element.withValue (.vStr (values.headD ""))).withVm 1)
      else if dcm_dict_vr_class element.vr ≠ .STRING_MULTI then
        none
      else
        some ((element.withValue (.vStrMulti values)).withVm vm)
    match assignedValue with
    | none => (false, element)
    | some element₁ =>
      let length := ((values.take vm).map strlen).sum +
        (if vm > 1 then vm - 1 else 0)
      let element₂ := element_set_length element₁ length
      dcm_element_validate element₂

/-- Splitting a character list on a separator (structurally recursive so
that concrete values reduce). -/
def splitListOn (sep : Char) : List Char → List (List Char)
  | [] => [[]]
  | c :: rest =>
    let r := splitListOn sep rest
    if c = sep then [] :: r
    else (c :: r.headD []) :: r.tail

/-- Modelled from the spec: `dcm_parse_character_string` is implemented
outside this source file; per §4.2 the value is split on the DICOM backslash
separator into a list of owned strings, returned with its count. -/
def dcm_parse_character_string (value : String) : List String × Nat :=
  let parts := (splitListOn ('\\') value.data).map String.mk
  (parts, parts.length)

/-- `element_set_value_string`: STRING_MULTI values are split on the
backslash separator and stored through the multi-value setter; other string
classes are stored as a single value. -/
def element_set_value_string (element : DcmElement) (value : String)
    (steal : Bool) : Bool × DcmElement :=
  if element_check_not_assigned element = false then (false, element)
  else if element_check_string element = false then (false, element)
  else if dcm_dict_vr_class element.vr = .STRING_MULTI then
    let parsed := dcm_parse_character_string value
    dcm_element_set_value_string_multi element parsed.1 parsed.2 true
  else
    let element₁ := (element.withValue (.vStr value)).withVm 1
    let element₂ := element_set_length element₁ (strlen value)
    dcm_element_validate element₂

def dcm_element_set_value_string (element : DcmElement) (value : String) :
    Bool × DcmElement :=
  element_set_value_string element value true

def dcm_element_set_value_string_static (element : DcmElement)
    (value : String) : Bool × DcmElement :=
  element_set_value_string element value false

-- ## Numeric setters

/-- `int64_to_value`: write an `int64_t` through a VR-directed type pun; the
stored scalar is the input narrowed to the VR's machine type. -/
def int64_to_value (vr : DcmVR) (value : Int) : Int :=
  match vr with
  | .SS => (value + 2 ^ 15).emod (2 ^ 16) - 2 ^ 15
  | .SL => (value + 2 ^ 31).emod (2 ^ 32) - 2 ^ 31
  | .SV => (value + 2 ^ 63).emod (2 ^ 64) - 2 ^ 63
  | .US => value.emod (2 ^ 16)
  | .UL => value.emod (2 ^ 32)
  | .UV => value.emod (2 ^ 64)
  | _ => value

def element_check_numeric (element : DcmElement) : Bool :=
  dcm_dict_vr_class element.vr = .NUMERIC

def element_check_integer (element : DcmElement) : Bool :=
  ¬ (element.vr = .FL ∨ element.vr = .FD)

def element_check_float (element : DcmElement) : Bool :=
  element.vr = .FL ∨ element.vr = .FD

def dcm_element_get_value_integer (element : DcmElement) (index : Nat) :
    Option Int :=
  if element_check_assigned element = false then none
  else if element_check_numeric element = false then none
  else if element_check_integer element = false then none
  else if element_check_index element index = false then none
  else if element.vm = 1 then
    match element.value with
    | .vInt v => some v
    | _ => none
  else
    match element.value with
    | .vIntMulti vs => vs.get? index
    | _ => none

/-- `dcm_element_set_value_integer`: the inline slot, `vm` and (when it was
zero) `length` are written before validation runs. -/
def dcm_element_set_value_integer (element : DcmElement) (value : Int) :
    Bool × DcmElement :=
  if element_check_not_assigned element = false then (false, element)
  else if element_check_numeric element = false then (false, element)
  else if element_check_integer element = false then (false, element)
  else
    let element₁ :=
      (element.withValue (.vInt (int64_to_value element.vr value))).withVm 1
    let element₂ := element_set_length element₁ (dcm_dict_vr_size element.vr)
    dcm_element_validate element₂

/-- `dcm_element_set_value_numeric_multi`; the scalar buffer is modelled as
an integer list (the claims never observe stored float array contents). -/
def dcm_element_set_value_numeric_multi (element : DcmElement)
    (value : List Int) (vm : Nat) (steal : Bool) : Bool × DcmElement :=
  if element_check_not_assigned element = false then (false, element)
  else if element_check_numeric element = false then (false, element)
  else
    let element₁ :=
      if vm = 1 then element.withValue (.vInt (value.headD 0))
      else element.withValue (.vIntMulti value)
    let element₂ := element₁.withVm vm
    let element₃ :=
      element_set_length element₂ (vm * dcm_dict_vr_size element.vr)
    dcm_element_validate element₃

/-- `dcm_element_set_value_double`; IEEE narrowing to `float` for VR FL is
not modelled (no claim observes stored float values). -/
def dcm_element_set_value_double (element : DcmElement) (value : Rat) :
    Bool × DcmElement :=
  if element_check_not_assigned element = false then (false, element)
  else if element_check_numeric element = false then (false, element)
  else if element_check_float element = false then (false, element)
  else
    let element₁ := (element.withValue (.vFloat value)).withVm 1
    let element₂ := element_set_length element₁ (dcm_dict_vr_size element.vr)
    dcm_element_validate element₂

-- ## Binary setter

def element_check_binary (element : DcmElement) : Bool :=
  dcm_dict_vr_class element.vr = .BINARY

def dcm_element_get_value_binary (element : DcmElement) : Option (List Nat) :=
  if element_check_assigned element = false then none
  else if element_check_binary element = false then none
  else
    match element.value with
    | .vBytes bytes => some bytes
    | _ => none

def dcm_element_set_value_binary (element : DcmElement) (value : List Nat)
    (length : Nat) (steal : Bool) : Bool × DcmElement :=
  if element_check_not_assigned element = false then (false, element)
  else if element_check_binary element = false then (false, element)
  else
    let element₁ := (element.withValue (.vBytes value)).withVm 1
    let element₂ := element_set_length element₁ length
    dcm_element_validate element₂

-- ## Locks

def dcm_dataset_lock (dataset : DcmDataSet) : DcmDataSet :=
  match dataset with
  | .mk e _ => .mk e true

def dcm_dataset_is_locked (dataset : DcmDataSet) : Bool :=
  dataset.is_locked

def dcm_sequence_lock (seq : DcmSequence) : DcmSequence :=
  match seq with
  | .mk i _ => .mk i true

def dcm_sequence_is_locked (seq : DcmSequence) : Bool :=
  seq.is_locked

-- ## Sequence-valued elements

def element_check_sequence (element : DcmElement) : Bool :=
  dcm_dict_vr_class element.vr = .SEQUENCE

/-- `dcm_element_get_value_sequence`: locks the contained sequence before
returning it.  The mutated element is returned alongside the result. -/
def dcm_element_get_value_sequence (element : DcmElement) :
    Option DcmSequence × DcmElement :=
  if element_check_assigned element = false then (none, element)
  else if element_check_sequence element = false then (none, element)
  else
    match element.value with
    | .vSeq sq =>
      let sq₁ := dcm_sequence_lock sq
      (some sq₁, element.withValue (.vSeq sq₁))
    | _ => (none, element)

/-- Sum of the `length` fields of a data set's elements (the inner loop of
`dcm_element_set_value_sequence`). -/
def dataset_length_sum (ds : DcmDataSet) : Nat :=
  (ds.elements.map DcmElement.length).sum

/-- `dcm_element_set_value_sequence`: the length loop fetches every item of
the incoming sequence through `dcm_sequence_get`, locking each item as a side
effect; the element takes ownership of the sequence. -/
def dcm_element_set_value_sequence (element : DcmElement)
    (value : DcmSequence) : Bool × DcmElement :=
  if element_check_not_assigned element = false then (false, element)
  else if element_check_sequence element = false then (false, element)
  else
    let lockedItems := value.items.map dcm_dataset_lock
    let length := (lockedItems.map dataset_length_sum).sum
    let value₁ := value.withItems lockedItems
    let element₁ := element_set_length element length
    let element₂ := (element₁.withValue (.vSeq value₁)).withVm 1
    dcm_element_validate element₂

-- ## Data sets

def dcm_dataset_create : DcmDataSet := .mk [] false

/-- `dcm_dataset_contains`: the non-failing uthash lookup. -/
def dcm_dataset_contains (dataset : DcmDataSet) (tag : Nat) :
    Option DcmElement :=
  dataset.elements.find? (fun e => e.tag = tag)

def dcm_dataset_count (dataset : DcmDataSet) : Nat :=
  dataset.elements.length

/-- The result of `dcm_dataset_insert`.  `destroyed` records whether
`dcm_element_destroy` was called on the provided element (ownership transfer
on failure). -/
structure InsertResult where
  ok : Bool
  dataset : DcmDataSet
  destroyed : Bool
  err : Option DcmError
deriving Inhabited

/-- `dcm_dataset_insert`: fails with INVALID when the set is locked or an
element with the same tag is present, destroying the provided element in
either case; otherwise the element is hash-added, which appends it in
insertion order. -/
def dcm_dataset_insert (dataset : DcmDataSet) (element : DcmElement) :
    InsertResult :=
  if dataset.is_locked then
    { ok := false, dataset := dataset, destroyed := true,
      err := some ⟨.INVALID, "Data Set is locked and cannot be modified",
        "Inserting Data Element into Data Set failed"⟩ }
  else if (dcm_dataset_contains dataset element.tag).isSome then
    { ok := false, dataset := dataset, destroyed := true,
      err := some ⟨.INVALID, "Element already exists",
        "Inserting Data Element into Data Set failed"⟩ }
  else
    { ok := true,
      dataset := dataset.withElements (dataset.elements ++ [element]),
      destroyed := false, err := none }

-- ## Tag sorting

/-- `compare_tags`: the C comparator subtracts two `uint32_t` values; the
`uint32_t` difference is then implicitly converted to `int`, i.e. read as a
two's-complement 32-bit value. -/
def compare_tags (a b : Nat) : Int :=
  let d : Nat := (a % 2 ^ 32 + (2 ^ 32 - b % 2 ^ 32)) % 2 ^ 32
  if d < 2 ^ 31 then (d : Int) else (d : Int) - 2 ^ 32

/-- The ordering `qsort` is given: 'a before b' when `compare_tags a b ≤ 0`. -/
def tagOrder (a b : Nat) : Prop := compare_tags a b ≤ 0

instance : DecidableRel tagOrder := fun a b =>
  inferInstanceAs (Decidable (compare_tags a b ≤ 0))

/-- `dcm_dataset_copy_tags`: copy the first `min n count` tags in insertion
order, then `qsort` the first `n` slots with `compare_tags`.  `qsort` is
modelled as insertion sort by the comparator (for `n ≤ count`; `n > count`
would sort indeterminate memory). -/
def dcm_dataset_copy_tags (dataset : DcmDataSet) (n : Nat) : List Nat :=
  let tags := (dataset.elements.map DcmElement.tag).take n
  tags.insertionSort tagOrder

-- ## Sequences

def dcm_sequence_create : DcmSequence := .mk [] false

def dcm_sequence_count (seq : DcmSequence) : Nat :=
  seq.items.length

/-- `create_sequence_item`: allocate the thin item wrapper and lock the
wrapped data set.  `allocOk` is the allocation oracle; on failure `DCM_NEW`
sets NOMEM and NULL is returned, before the data set is locked. -/
def create_sequence_item (allocOk : Bool) (dataset : DcmDataSet) :
    Option DcmDataSet :=
  if allocOk then some (dcm_dataset_lock dataset) else none

/-- `dcm_sequence_append`: on a locked sequence, set INVALID, destroy the
item and return false.  Otherwise the item wrapper is created and pushed;
the result of `create_sequence_item` is never checked, so the function
returns true even when the wrapper allocation failed (in C the push then
copies through a NULL wrapper; the model records only that the item is not
appended and the function still returns true). -/
def dcm_sequence_append (allocOk : Bool) (seq : DcmSequence)
    (item : DcmDataSet) : Bool × DcmSequence × Option DcmError :=
  if seq.is_locked then
    (false, seq, some ⟨.INVALID, "Appending item to Sequence failed",
      "Sequence is locked and cannot be modified."⟩)
  else
    match create_sequence_item allocOk item with
    | some wrapped => (true, seq.withItems (seq.items ++ [wrapped]), none)
    | none => (true, seq, none)

/-- `dcm_sequence_get`: out-of-range fails with INVALID; otherwise the item
is locked in place and returned.  The two NULL checks after
`utarray_eltptr` cannot fire (the index is in range and every stored wrapper
holds a data set). -/
def dcm_sequence_get (seq : DcmSequence) (index : Nat) :
    Option DcmDataSet × DcmSequence × Option DcmError :=
  let length := seq.items.length
  if index ≥ length then
    (none, seq, some ⟨.INVALID, "Getting item of Sequence failed",
      "Index exceeds length of sequence"⟩)
  else
    let item := seq.items.getD index default
    let locked := dcm_dataset_lock item
    (some locked, seq.withItems (seq.items.set index locked), none)

-- ## Basic Offset Table

/-- `struct _DcmBOT`: the `offsets` array (with `num_frames` entries) and the
constant prefix. -/
structure DcmBOT where
  offsets : List Int
  first_frame_offset : Int
deriving DecidableEq

def dcm_bot_get_num_frames (bot : DcmBOT) : Nat :=
  bot.offsets.length

/-- `dcm_bot_create`: fails with INVALID when `num_frames` is zero (the
offsets argument being non-NULL is implicit in modelling it as a list whose
length is `num_frames`). -/
def dcm_bot_create (offsets : List Int) (num_frames : Nat)
    (first_frame_offset : Int) : Option DcmBOT × Option DcmError :=
  if num_frames = 0 then
    (none, some ⟨.INVALID, "Constructing Basic Offset Table failed",
      "Expected offsets of Frame Items"⟩)
  else if offsets.length ≠ num_frames then
    (none, none)
  else
    (some ⟨offsets, first_frame_offset⟩, none)

/-- `dcm_bot_get_frame_offset`: `number` is asserted to lie in
`[1, num_frames]`; the entry at `number - 1` plus the constant prefix. -/
def dcm_bot_get_frame_offset (bot : DcmBOT) (number : Nat) : Int :=
  bot.offsets.getD (number - 1) 0 + bot.first_frame_offset

-- ## Cloning

theorem sizeOf_dcm_dataset_lock (d : DcmDataSet) :
    sizeOf (dcm_dataset_lock d) = sizeOf d := by
  cases d with
  | mk e l => cases l <;> simp [dcm_dataset_lock]

mutual

/-- `dcm_element_clone`.  For a sequence element the source is reached
through the locking getter (`dcm_element_get_value_sequence`, inlined so the
recursion is visibly structural) and each item through the locking
`dcm_sequence_get` (the lock step of `cloneItems`), mutating the original;
the mutated original is returned alongside the optional clone.  The final
`dcm_element_validate` runs for every branch; in the SEQUENCE branch the
clone was already marked assigned by `dcm_element_set_value_sequence`, so
that final validation rejects it and the sequence branch can never
succeed. -/
def dcm_element_clone (element : DcmElement) : Option DcmElement × DcmElement :=
  match (dcm_element_create element.tag element.length).1 with
  | none => (none, element)
  | some clone =>
    let step : Option DcmElement × DcmElement :=
      match dcm_dict_vr_class element.vr with
      | .SEQUENCE =>
        if element_check_assigned element = false then (none, element)
        else
          match element with
          | .mk tag₀ vr₀ len₀ vm₀ asg₀ (.vSeq (.mk its _)) =>
            match cloneItems its with
            | (none, its₁) =>
              (none, .mk tag₀ vr₀ len₀ vm₀ asg₀ (.vSeq (.mk its₁ true)))
            | (some cloned, its₁) =>
              let element₂ : DcmElement :=
                .mk tag₀ vr₀ len₀ vm₀ asg₀ (.vSeq (.mk its₁ true))
              match dcm_element_set_value_sequence clone (.mk cloned false) with
              | (false, _) => (none, element₂)
              | (true, clone₁) => (some clone₁, element₂)
          | _ => (none, element)
      | .STRING_MULTI | .STRING_SINGLE =>
        if element.vm = 1 then
          match element.value with
          | .vStr s => (some ((clone.withValue (.vStr s)).withVm 1), element)
          | _ => (some clone, element)
        else if element.vm > 1 then
          match element.value with
          | .vStrMulti ss =>
            (some ((clone.withValue (.vStrMulti ss)).withVm element.vm), element)
          | _ => (some clone, element)
        else (some clone, element)
      | .BINARY =>
        match element.value with
        | .vBytes bytes =>
          (some ((clone.withValue (.vBytes bytes)).withVm 1), element)
        | _ => (some clone, element)
      | .NUMERIC =>
        if element.vm = 1 then
          (some ((clone.withValue element.value).withVm 1), element)
        else
          (some ((clone.withValue element.value).withVm element.vm), element)
      | .ERROR => (some clone, element)
    match step with
    | (none, element₁) => (none, element₁)
    | (some clone₁, element₁) =>
      match dcm_element_validate clone₁ with
      | (false, _) => (none, element₁)
      | (true, clone₂) => (some clone₂, element₁)

/-- The item loop of the SEQUENCE branch of `dcm_element_clone`: each item is
fetched through `dcm_sequence_get` (locking it in place before the copy),
deep-copied with `dcm_dataset_clone` (inlined here as its element loop
`cloneElems`, so the recursion is structural), and the copy appended to the
fresh sequence, which locks the copy.  Returns the cloned items and the
originals as left by the loop. -/
def cloneItems : List DcmDataSet → Option (List DcmDataSet) × List DcmDataSet
  | [] => (some [], [])
  | item :: rest =>
    match item with
    | .mk elems _ =>
      match cloneElems elems dcm_dataset_create with
      | (none, elems₁) => (none, DcmDataSet.mk elems₁ true :: rest)
      | (some cloned, elems₁) =>
        match cloneItems rest with
        | (none, rest₁) => (none, DcmDataSet.mk elems₁ true :: rest₁)
        | (some clones, rest₁) =>
          (some (dcm_dataset_lock cloned :: clones),
            DcmDataSet.mk elems₁ true :: rest₁)

/-- The element loop of `dcm_dataset_clone`. -/
def cloneElems : List DcmElement → DcmDataSet → Option DcmDataSet × List DcmElement
  | [], acc => (some acc, [])
  | e :: rest, acc =>
    match dcm_element_clone e with
    | (none, e₁) => (none, e₁ :: rest)
    | (some cloned, e₁) =>
      let ins := dcm_dataset_insert acc cloned
      if ins.ok then
        match cloneElems rest ins.dataset with
        | (r, rest₁) => (r, e₁ :: rest₁)
      else (none, e₁ :: rest)

end

/-- `dcm_dataset_clone`: clone every element in insertion order into a fresh
data set; a clone or insert failure aborts.  The originals may be mutated
(sequence-valued elements get locked), so they are returned too. -/
def dcm_dataset_clone (dataset : DcmDataSet) : Option DcmDataSet × DcmDataSet :=
  match dataset with
  | .mk elems lk =>
    match cloneElems elems dcm_dataset_create with
    | (r, elems₁) => (r, .mk elems₁ lk)

-- ## The setter family and reachable elements

/-- One application of a value setter with its arguments: the "one setter per
VR-class family" of §4.2. -/
inductive SetterCall where
  | integer (value : Int)
  | double (value : Rat)
  | str (value : String)
  | strStatic (value : String)
  | strMulti (values : List String) (vm : Nat) (steal : Bool)
  | numericMulti (values : List Int) (vm : Nat) (steal : Bool)
  | binary (value : List Nat) (length : Nat) (steal : Bool)
  | seqVal (value : DcmSequence)

def applySetter (call : SetterCall) (element : DcmElement) :
    Bool × DcmElement :=
  match call with
  | .integer v => dcm_element_set_value_integer element v
  | .double v => dcm_element_set_value_double element v
  | .str v => dcm_element_set_value_string element v
  | .strStatic v => dcm_element_set_value_string_static element v
  | .strMulti vs vm steal =>
    dcm_element_set_value_string_multi element vs vm steal
  | .numericMulti vs vm steal =>
    dcm_element_set_value_numeric_multi element vs vm steal
  | .binary v len steal => dcm_element_set_value_binary element v len steal
  | .seqVal sq => dcm_element_set_value_sequence element sq

/-- The elements reachable through the element API over their lifetime:
created by `dcm_element_create`, then stepped by value setters (keeping the
element a failed setter leaves behind as well). -/
inductive ReachableElement : DcmElement → Prop where
  | create (tag length : Nat) (e : DcmElement) :
      (dcm_element_create tag length).1 = some e → ReachableElement e
  | step (e : DcmElement) (call : SetterCall) :
      ReachableElement e → ReachableElement (applySetter call e).2

-- ## Accessor lemmas

namespace DcmElement

@[simp] theorem withValue_tag (e : DcmElement) (v : DcmValue) :
    (e.withValue v).tag = e.tag := by cases e; rfl

@[simp] theorem withValue_vr (e : DcmElement) (v : DcmValue) :
    (e.withValue v).vr = e.vr := by cases e; rfl

@[simp] theorem withValue_length (e : DcmElement) (v : DcmValue) :
    (e.withValue v).length = e.length := by cases e; rfl

@[simp] theorem withValue_vm (e : DcmElement) (v : DcmValue) :
    (e.withValue v).vm = e.vm := by cases e; rfl

@[simp] theorem withValue_assigned (e : DcmElement) (v : DcmValue) :
    (e.withValue v).assigned = e.assigned := by cases e; rfl

@[simp] theorem withValue_value (e : DcmElement) (v : DcmValue) :
    (e.withValue v).value = v := by cases e; rfl

@[simp] theorem withVm_tag (e : DcmElement) (m : Nat) :
    (e.withVm m).tag = e.tag := by cases e; rfl

@[simp] theorem withVm_vr (e : DcmElement) (m : Nat) :
    (e.withVm m).vr = e.vr := by cases e; rfl

@[simp] theorem withVm_length (e : DcmElement) (m : Nat) :
    (e.withVm m).length = e.length := by cases e; rfl

@[simp] theorem withVm_vm (e : DcmElement) (m : Nat) :
    (e.withVm m).vm = m := by cases e; rfl

@[simp] theorem withVm_assigned (e : DcmElement) (m : Nat) :
    (e.withVm m).assigned = e.assigned := by cases e; rfl

@[simp] theorem withVm_value (e : DcmElement) (m : Nat) :
    (e.withVm m).value = e.value := by cases e; rfl

@[simp] theorem withLength_tag (e : DcmElement) (l : Nat) :
    (e.withLength l).tag = e.tag := by cases e; rfl

@[simp] theorem withLength_vr (e : DcmElement) (l : Nat) :
    (e.withLength l).vr = e.vr := by cases e; rfl

@[simp] theorem withLength_length (e : DcmElement) (l : Nat) :
    (e.withLength l).length = l := by cases e; rfl

@[simp] theorem withLength_vm (e : DcmElement) (l : Nat) :
    (e.withLength l).vm = e.vm := by cases e; rfl

@[simp] theorem withLength_assigned (e : DcmElement) (l : Nat) :
    (e.withLength l).assigned = e.assigned := by cases e; rfl

@[simp] theorem withLength_value (e : DcmElement) (l : Nat) :
    (e.withLength l).value = e.value := by cases e; rfl

@[simp] theorem withAssigned_tag (e : DcmElement) (a : Bool) :
    (e.withAssigned a).tag = e.tag := by cases e; rfl

@[simp] theorem withAssigned_vr (e : DcmElement) (a : Bool) :
    (e.withAssigned a).vr = e.vr := by cases e; rfl

@[simp] theorem withAssigned_length (e : DcmElement) (a : Bool) :
    (e.withAssigned a).length = e.length := by cases e; rfl

@[simp] theorem withAssigned_vm (e : DcmElement) (a : Bool) :
    (e.withAssigned a).vm = e.vm := by cases e; rfl

@[simp] theorem withAssigned_assigned (e : DcmElement) (a : Bool) :
    (e.withAssigned a).assigned = a := by cases e; rfl

@[simp] theorem withAssigned_value (e : DcmElement) (a : Bool) :
    (e.withAssigned a).value = e.value := by cases e; rfl

end DcmElement

@[simp] theorem element_set_length_tag (e : DcmElement) (n : Nat) :
    (element_set_length e n).tag = e.tag := by
  unfold element_set_length; split <;> split <;> simp

@[simp] theorem element_set_length_vr (e : DcmElement) (n : Nat) :
    (element_set_length e n).vr = e.vr := by
  unfold element_set_length; split <;> split <;> simp

@[simp] theorem element_set_length_vm (e : DcmElement) (n : Nat) :
    (element_set_length e n).vm = e.vm := by
  unfold element_set_length; split <;> split <;> simp

@[simp] theorem element_set_length_assigned (e : DcmElement) (n : Nat) :
    (element_set_length e n).assigned = e.assigned := by
  unfold element_set_length; split <;> split <;> simp

@[simp] theorem element_set_length_value (e : DcmElement) (n : Nat) :
    (element_set_length e n).value = e.value := by
  unfold element_set_length; split <;> split <;> simp

theorem element_set_length_even (e : DcmElement) (n : Nat)
    (h : e.length % 2 = 0) : (element_set_length e n).length % 2 = 0 := by
  unfold element_set_length
  split <;> split <;> simp_all <;> omega

theorem element_set_length_of_zero (e : DcmElement) (n : Nat)
    (h : e.length = 0) :
    (element_set_length e n).length = (if n % 2 ≠ 0 then n + 1 else n) := by
  unfold element_set_length
  simp [h]

theorem element_set_length_of_ne_zero (e : DcmElement) (n : Nat)
    (h : e.length ≠ 0) : element_set_length e n = e := by
  unfold element_set_length
  simp [h]


-- ## Validation and setter shape lemmas

theorem dcm_element_validate_spec (e : DcmElement) :
    dcm_element_validate e = (false, e) ∨
    (e.assigned = false ∧ e.vr = dcm_dict_lookup_vr e.tag ∧
     dcm_element_validate e = (true, e.withAssigned true)) := by
  by_cases ha : e.assigned = true
  · left
    simp [dcm_element_validate, element_check_not_assigned, ha]
  · replace ha : e.assigned = false := by simpa using ha
    by_cases hvr : e.vr = dcm_dict_lookup_vr e.tag
    · by_cases herr : dcm_dict_vr_class e.vr = DcmVRClass.ERROR
      · left
        rw [hvr] at herr
        simp [dcm_element_validate, element_check_not_assigned, ha, hvr, herr]
      · by_cases hnum : dcm_dict_vr_class e.vr = DcmVRClass.NUMERIC ∧
            e.length ≠ e.vm * dcm_dict_vr_size e.vr
        · left
          rw [hvr] at herr hnum
          simp [dcm_element_validate, element_check_not_assigned, ha, hvr,
            herr, hnum]
        · by_cases hcap : (dcm_dict_vr_class e.vr = DcmVRClass.STRING_MULTI ∨
              dcm_dict_vr_class e.vr = DcmVRClass.STRING_SINGLE) ∧
              element_check_capacity e (dcm_dict_vr_capacity e.vr) = false
          · left
            rw [hvr] at herr hnum hcap
            simp [dcm_element_validate, element_check_not_assigned, ha, hvr,
              herr, hnum, hcap]
          · right
            refine ⟨ha, hvr, ?_⟩
            rw [hvr] at herr hnum hcap
            simp [dcm_element_validate, element_check_not_assigned, ha, hvr,
              herr, hnum, hcap]
    · left
      simp [dcm_element_validate, element_check_not_assigned, ha, hvr]

theorem dcm_element_set_value_string_multi_shape (e : DcmElement)
    (vs : List String) (vm : Nat) (steal : Bool) :
    dcm_element_set_value_string_multi e vs vm steal = (false, e) ∨
    ∃ e', e.assigned = false ∧ e'.tag = e.tag ∧ e'.vr = e.vr ∧ e'.assigned = e.assigned ∧
      (e.length % 2 = 0 → e'.length % 2 = 0) ∧
      dcm_element_set_value_string_multi e vs vm steal =
        dcm_element_validate e' := by
  by_cases h1 : element_check_not_assigned e = false
  · left; simp [dcm_element_set_value_string_multi, h1]
  · by_cases h2 : element_check_string e = false
    · left; simp [dcm_element_set_value_string_multi, h1, h2]
    · by_cases hvm : vm = 1
      · have heq : dcm_element_set_value_string_multi e vs vm steal =
            dcm_element_validate
              (element_set_length ((e.withValue (.vStr (vs.headD ""))).withVm 1)
                (((vs.take vm).map strlen).sum +
                  (if vm > 1 then vm - 1 else 0))) := by
          simp [dcm_element_set_value_string_multi, h1, h2, hvm]
        refine Or.inr ⟨_, by simpa [element_check_not_assigned] using h1, by simp, by simp, by simp, ?_, heq⟩
        intro h
        exact element_set_length_even _ _ (by simpa using h)
      · by_cases hk : dcm_dict_vr_class e.vr ≠ DcmVRClass.STRING_MULTI
        · left
          simp [dcm_element_set_value_string_multi, h1, h2, hvm, hk]
        · have heq : dcm_element_set_value_string_multi e vs vm steal =
              dcm_element_validate
                (element_set_length ((e.withValue (.vStrMulti vs)).withVm vm)
                  (((vs.take vm).map strlen).sum +
                    (if vm > 1 then vm - 1 else 0))) := by
            simp [dcm_element_set_value_string_multi, h1, h2, hvm, hk]
          refine Or.inr ⟨_, by simpa [element_check_not_assigned] using h1, by simp, by simp, by simp, ?_, heq⟩
          intro h
          exact element_set_length_even _ _ (by simpa using h)

theorem element_set_value_string_shape (e : DcmElement) (v : String)
    (steal : Bool) :
    element_set_value_string e v steal = (false, e) ∨
    ∃ e', e.assigned = false ∧ e'.tag = e.tag ∧ e'.vr = e.vr ∧ e'.assigned = e.assigned ∧
      (e.length % 2 = 0 → e'.length % 2 = 0) ∧
      element_set_value_string e v steal = dcm_element_validate e' := by
  by_cases h1 : element_check_not_assigned e = false
  · left; simp [element_set_value_string, h1]
  · by_cases h2 : element_check_string e = false
    · left; simp [element_set_value_string, h1, h2]
    · by_cases h3 : dcm_dict_vr_class e.vr = DcmVRClass.STRING_MULTI
      · have heq : element_set_value_string e v steal =
            dcm_element_set_value_string_multi e
              (dcm_parse_character_string v).1
              (dcm_parse_character_string v).2 true := by
          simp [element_set_value_string, h1, h2, h3]
        rcases dcm_element_set_value_string_multi_shape e
            (dcm_parse_character_string v).1
            (dcm_parse_character_string v).2 true with h | ⟨e', he'⟩
        · left; rw [heq, h]
        · right
          exact ⟨e', he'.1, he'.2.1, he'.2.2.1, he'.2.2.2.1, he'.2.2.2.2.1,
            heq.trans he'.2.2.2.2.2⟩
      · have heq : element_set_value_string e v steal =
            dcm_element_validate
              (element_set_length ((e.withValue (.vStr v)).withVm 1)
                (strlen v)) := by
          simp [element_set_value_string, h1, h2, h3]
        refine Or.inr ⟨_, by simpa [element_check_not_assigned] using h1, by simp, by simp, by simp, ?_, heq⟩
        intro h
        exact element_set_length_even _ _ (by simpa using h)

/-- Every setter either rejects without touching the element, or hands a
mutated element with the same tag, VR and assigned flag (and still-even
length) to `dcm_element_validate`. -/
theorem setterShape (call : SetterCall) (e : DcmElement) :
    applySetter call e = (false, e) ∨
    ∃ e', e.assigned = false ∧ e'.tag = e.tag ∧ e'.vr = e.vr ∧ e'.assigned = e.assigned ∧
      (e.length % 2 = 0 → e'.length % 2 = 0) ∧
      applySetter call e = dcm_element_validate e' := by
  have heven : ∀ (x : DcmElement) (n : Nat), x.length = e.length →
      e.length % 2 = 0 → (element_set_length x n).length % 2 = 0 := by
    intro x n hx h
    exact element_set_length_even _ _ (by rw [hx]; exact h)
  cases call with
  | integer v =>
    by_cases h1 : element_check_not_assigned e = false
    · left; simp [applySetter, dcm_element_set_value_integer, h1]
    · by_cases h2 : element_check_numeric e = false
      · left; simp [applySetter, dcm_element_set_value_integer, h1, h2]
      · by_cases h3 : element_check_integer e = false
        · left; simp [applySetter, dcm_element_set_value_integer, h1, h2, h3]
        · have heq : applySetter (SetterCall.integer v) e =
              dcm_element_validate (element_set_length
                ((e.withValue (.vInt (int64_to_value e.vr v))).withVm 1)
                (dcm_dict_vr_size e.vr)) := by
            simp [applySetter, dcm_element_set_value_integer, h1, h2, h3]
          exact Or.inr ⟨_, by simpa [element_check_not_assigned] using h1,
            by simp, by simp, by simp, heven _ _ (by simp), heq⟩
  | double v =>
    by_cases h1 : element_check_not_assigned e = false
    · left; simp [applySetter, dcm_element_set_value_double, h1]
    · by_cases h2 : element_check_numeric e = false
      · left; simp [applySetter, dcm_element_set_value_double, h1, h2]
      · by_cases h3 : element_check_float e = false
        · left; simp [applySetter, dcm_element_set_value_double, h1, h2, h3]
        · have heq : applySetter (SetterCall.double v) e =
              dcm_element_validate (element_set_length
                ((e.withValue (.vFloat v)).withVm 1)
                (dcm_dict_vr_size e.vr)) := by
            simp [applySetter, dcm_element_set_value_double, h1, h2, h3]
          exact Or.inr ⟨_, by simpa [element_check_not_assigned] using h1,
            by simp, by simp, by simp, heven _ _ (by simp), heq⟩
  | binary v len steal =>
    by_cases h1 : element_check_not_assigned e = false
    · left; simp [applySetter, dcm_element_set_value_binary, h1]
    · by_cases h2 : element_check_binary e = false
      · left; simp [applySetter, dcm_element_set_value_binary, h1, h2]
      · have heq : applySetter (SetterCall.binary v len steal) e =
            dcm_element_validate (element_set_length
              ((e.withValue (.vBytes v)).withVm 1) len) := by
          simp [applySetter, dcm_element_set_value_binary, h1, h2]
        exact Or.inr ⟨_, by simpa [element_check_not_assigned] using h1,
          by simp, by simp, by simp, heven _ _ (by simp), heq⟩
  | numericMulti vs vm steal =>
    by_cases h1 : element_check_not_assigned e = false
    · left; simp [applySetter, dcm_element_set_value_numeric_multi, h1]
    · by_cases h2 : element_check_numeric e = false
      · left; simp [applySetter, dcm_element_set_value_numeric_multi, h1, h2]
      · have heq : applySetter (SetterCall.numericMulti vs vm steal) e =
            dcm_element_validate (element_set_length
              ((if vm = 1 then e.withValue (.vInt (vs.headD 0))
                else e.withValue (.vIntMulti vs)).withVm vm)
              (vm * dcm_dict_vr_size e.vr)) := by
          simp [applySetter, dcm_element_set_value_numeric_multi, h1, h2]
        refine Or.inr ⟨_, by simpa [element_check_not_assigned] using h1,
          ?_, ?_, ?_, ?_, heq⟩
        · split <;> simp
        · split <;> simp
        · split <;> simp
        · refine heven _ _ ?_
          split <;> simp
  | seqVal sq =>
    by_cases h1 : element_check_not_assigned e = false
    · left; simp [applySetter, dcm_element_set_value_sequence, h1]
    · by_cases h2 : element_check_sequence e = false
      · left; simp [applySetter, dcm_element_set_value_sequence, h1, h2]
      · have heq : applySetter (SetterCall.seqVal sq) e =
            dcm_element_validate
              (((element_set_length e
                  (((sq.items.map dcm_dataset_lock).map dataset_length_sum).sum)).withValue
                (.vSeq (sq.withItems (sq.items.map dcm_dataset_lock)))).withVm 1) := by
          simp [applySetter, dcm_element_set_value_sequence, h1, h2]
        refine Or.inr ⟨_, by simpa [element_check_not_assigned] using h1, by simp, by simp, by simp, ?_, heq⟩
        intro h
        simpa using element_set_length_even e _ h
  | strMulti vs vm steal =>
    rcases dcm_element_set_value_string_multi_shape e vs vm steal with h | h
    · exact Or.inl (by simpa [applySetter] using h)
    · rcases h with ⟨e', he'⟩
      exact Or.inr ⟨e', he'.1, he'.2.1, he'.2.2.1, he'.2.2.2.1, he'.2.2.2.2.1,
        by simpa [applySetter] using he'.2.2.2.2.2⟩
  | str v =>
    rcases element_set_value_string_shape e v true with h | h
    · exact Or.inl
        (by simpa [applySetter, dcm_element_set_value_string] using h)
    · rcases h with ⟨e', he'⟩
      exact Or.inr ⟨e', he'.1, he'.2.1, he'.2.2.1, he'.2.2.2.1, he'.2.2.2.2.1,
        by simpa [applySetter, dcm_element_set_value_string]
          using he'.2.2.2.2.2⟩
  | strStatic v =>
    rcases element_set_value_string_shape e v false with h | h
    · exact Or.inl
        (by simpa [applySetter, dcm_element_set_value_string_static] using h)
    · rcases h with ⟨e', he'⟩
      exact Or.inr ⟨e', he'.1, he'.2.1, he'.2.2.1, he'.2.2.2.1, he'.2.2.2.2.1,
        by simpa [applySetter, dcm_element_set_value_string_static]
          using he'.2.2.2.2.2⟩

-- ## Constructor accessor lemmas

@[simp] theorem DcmElement.tag_mk (t : Nat) (v : DcmVR) (l m : Nat) (a : Bool)
    (val : DcmValue) : (DcmElement.mk t v l m a val).tag = t := rfl

@[simp] theorem DcmElement.vr_mk (t : Nat) (v : DcmVR) (l m : Nat) (a : Bool)
    (val : DcmValue) : (DcmElement.mk t v l m a val).vr = v := rfl

@[simp] theorem DcmElement.length_mk (t : Nat) (v : DcmVR) (l m : Nat)
    (a : Bool) (val : DcmValue) : (DcmElement.mk t v l m a val).length = l :=
  rfl

@[simp] theorem DcmElement.vm_mk (t : Nat) (v : DcmVR) (l m : Nat) (a : Bool)
    (val : DcmValue) : (DcmElement.mk t v l m a val).vm = m := rfl

@[simp] theorem DcmElement.assigned_mk (t : Nat) (v : DcmVR) (l m : Nat)
    (a : Bool) (val : DcmValue) :
    (DcmElement.mk t v l m a val).assigned = a := rfl

@[simp] theorem DcmElement.value_mk (t : Nat) (v : DcmVR) (l m : Nat)
    (a : Bool) (val : DcmValue) : (DcmElement.mk t v l m a val).value = val :=
  rfl

@[simp] theorem DcmSequence.items_mk (i : List DcmDataSet) (l : Bool) :
    (DcmSequence.mk i l).items = i := rfl

@[simp] theorem DcmSequence.mk_is_locked (i : List DcmDataSet) (l : Bool) :
    (DcmSequence.mk i l).is_locked = l := rfl

@[simp] theorem DcmDataSet.elements_mk (e : List DcmElement) (l : Bool) :
    (DcmDataSet.mk e l).elements = e := rfl

@[simp] theorem DcmDataSet.is_locked_mk (e : List DcmElement) (l : Bool) :
    (DcmDataSet.mk e l).is_locked = l := rfl

@[simp] theorem DcmDataSet.elements_withElements (d : DcmDataSet)
    (e : List DcmElement) : (d.withElements e).elements = e := by
  cases d; rfl

@[simp] theorem DcmDataSet.is_locked_withElements (d : DcmDataSet)
    (e : List DcmElement) : (d.withElements e).is_locked = d.is_locked := by
  cases d; rfl

@[simp] theorem DcmSequence.items_withItems (s : DcmSequence)
    (i : List DcmDataSet) : (s.withItems i).items = i := by
  cases s; rfl

@[simp] theorem DcmSequence.is_locked_withItems (s : DcmSequence)
    (i : List DcmDataSet) : (s.withItems i).is_locked = s.is_locked := by
  cases s; rfl

-- ## Derived setter lemmas

theorem dcm_element_create_spec (tag len : Nat) (e : DcmElement)
    (h : (dcm_element_create tag len).1 = some e) :
    e.tag = tag ∧ e.vr = dcm_dict_lookup_vr tag ∧ e.assigned = false ∧
    e.vm = 0 ∧ e.length % 2 = 0 := by
  by_cases hvr : dcm_dict_lookup_vr tag = DcmVR.uk
  · simp [dcm_element_create, hvr] at h
  · simp [dcm_element_create, hvr] at h
    refine ⟨by simp [← h], by simp [← h], by simp [← h], by simp [← h], ?_⟩
    rw [← h]
    exact element_set_length_even _ _ (by simp)

theorem applySetter_of_assigned (call : SetterCall) (e : DcmElement)
    (h : e.assigned = true) : applySetter call e = (false, e) := by
  rcases setterShape call e with hs | ⟨e₀, hna, _⟩
  · exact hs
  · rw [h] at hna
    cases hna

theorem applySetter_success (call : SetterCall) (e e' : DcmElement)
    (h : applySetter call e = (true, e')) :
    e.assigned = false ∧ e'.assigned = true ∧ e'.tag = e.tag ∧
    e'.vr = e.vr ∧ e'.vr = dcm_dict_lookup_vr e'.tag ∧
    (e.length % 2 = 0 → e'.length % 2 = 0) := by
  rcases setterShape call e with hs | ⟨e₀, hna, ht, hv, ha, hl, heq⟩
  · rw [hs] at h; simp at h
  · rw [heq] at h
    rcases dcm_element_validate_spec e₀ with h2 | ⟨ha0, hvr0, h2⟩
    · rw [h2] at h; simp at h
    · rw [h2] at h
      have he' : e₀.withAssigned true = e' := by simpa using h
      refine ⟨hna, by simp [← he'], by simp [← he', ht], by simp [← he', hv],
        ?_, fun hev => by simpa [← he'] using hl hev⟩
      rw [← he']
      simpa using hvr0

theorem applySetter_failure (call : SetterCall) (e : DcmElement)
    (h : (applySetter call e).1 = false) :
    ((applySetter call e).2).assigned = e.assigned := by
  rcases setterShape call e with hs | ⟨e₀, hna, ht, hv, ha, hl, heq⟩
  · rw [hs]
  · rw [heq]
    rcases dcm_element_validate_spec e₀ with h2 | ⟨ha0, hvr0, h2⟩
    · rw [h2]; exact ha
    · rw [heq, h2] at h; simp at h

-- ## Concrete objects used by witnesses and counterexamples

/-- The element `dcm_element_create 0x00280010 2` returns (Rows, VR US). -/
def elemRowsCreated : DcmElement := DcmElement.mk 0x00280010 .US 2 0 false .vNone

/-- `elemRowsCreated` after a successful `set_value_integer 512`. -/
def elemRowsAssigned : DcmElement :=
  (applySetter (.integer 512) elemRowsCreated).2

-- ## C1

/-- C1: for every element reachable through the API that has been
successfully assigned, its VR equals `dcm_dict_lookup_vr` of its tag, its
`assigned` flag is true and its length is even; moreover `assigned`
transitions false to true exactly once: a setter succeeds only on an
unassigned element and leaves it assigned, and once assigned every further
setter fails and returns the element unchanged. -/
theorem C1_assigned_element_invariants (e : DcmElement)
    (he : ReachableElement e) :
    (e.assigned = true →
      e.vr = dcm_dict_lookup_vr e.tag ∧ e.length % 2 = 0) ∧
    (∀ call e', applySetter call e = (true, e') →
      e.assigned = false ∧ e'.assigned = true) ∧
    (e.assigned = true → ∀ call, applySetter call e = (false, e)) := by
  have hinv : e.vr = dcm_dict_lookup_vr e.tag ∧ e.length % 2 = 0 := by
    induction he with
    | create tag len e h =>
      obtain ⟨ht, hv, -, -, hl⟩ := dcm_element_create_spec tag len e h
      exact ⟨ht ▸ hv, hl⟩
    | step e call hr ih =>
      rcases setterShape call e with hs | ⟨e₀, hna, ht, hv, ha, hl, heq⟩
      · rw [hs]; exact ih
      · rw [heq]
        rcases dcm_element_validate_spec e₀ with h2 | ⟨ha0, hvr0, h2⟩
        · rw [h2]
          exact ⟨by rw [hv, ht]; exact ih.1, hl ih.2⟩
        · rw [h2]
          refine ⟨by simpa using hvr0, by simpa using hl ih.2⟩
  exact ⟨fun _ => hinv,
    fun call e' h => ⟨(applySetter_success call e e' h).1,
      (applySetter_success call e e' h).2.1⟩,
    fun ha call => applySetter_of_assigned call e ha⟩

/-- Witness for C1 at a concrete lifecycle: create Rows (US) with length 2,
assign 512; the resulting element satisfies the invariants. -/
theorem C1_witness :
    elemRowsAssigned.assigned = true ∧
    elemRowsAssigned.vr = dcm_dict_lookup_vr elemRowsAssigned.tag ∧
    elemRowsAssigned.length % 2 = 0 :=
  have hr : ReachableElement elemRowsAssigned :=
    ReachableElement.step elemRowsCreated (.integer 512)
      (ReachableElement.create 0x00280010 2 elemRowsCreated rfl)
  ⟨by decide,
   ((C1_assigned_element_invariants elemRowsAssigned hr).1 (by decide)).1,
   ((C1_assigned_element_invariants elemRowsAssigned hr).1 (by decide)).2⟩

-- ## C3

/-- C3 (amended): every value setter first checks `assigned == false` (an
already-assigned element is rejected with the element unchanged); on any
failure the setter returns false and the element remains unassigned
(`assigned` is unchanged); after a successful setter `assigned` is true.
The original claim's stronger assertion -- that on error the element's whole
observable state including `vm` and `length` is unchanged -- fails:
`C3_counterexample` exhibits a failing setter that has already overwritten
`vm`. -/
theorem C3_setter_failure_leaves_unassigned (call : SetterCall)
    (e : DcmElement) :
    (e.assigned = true → applySetter call e = (false, e)) ∧
    ((applySetter call e).1 = false →
      ((applySetter call e).2).assigned = e.assigned) ∧
    ((applySetter call e).1 = true →
      ((applySetter call e).2).assigned = true) := by
  refine ⟨fun h => applySetter_of_assigned call e h,
    fun h => applySetter_failure call e h, fun h => ?_⟩
  have hx : applySetter call e = (true, (applySetter call e).2) := by
    rw [← h]
  exact (applySetter_success call e _ hx).2.1

/-- Witness for C3 at a successful concrete setter. -/
theorem C3_witness :
    (applySetter (.integer 512) elemRowsCreated).1 = true ∧
    ((applySetter (.integer 512) elemRowsCreated).2).assigned = true :=
  ⟨by decide,
   (C3_setter_failure_leaves_unassigned (.integer 512) elemRowsCreated).2.2
     (by decide)⟩

/-- The element `dcm_element_create 0x00280010 4` returns: Rows (US) with a
provisional length of 4 from the header. -/
def elemRowsLen4 : DcmElement := DcmElement.mk 0x00280010 .US 4 0 false .vNone

/-- C3 counterexample: on `elemRowsLen4`, `set_value_integer 512` fails
validation (recorded length 4 differs from `vm * vr_size = 2`) and leaves the
element unassigned -- but it has already written `vm := 1` (and the value
slot), so the observable state is NOT unchanged on error, refuting the
claim's "the operation does not partially succeed" part. -/
theorem C3_counterexample :
    (dcm_element_create 0x00280010 4).1 = some elemRowsLen4 ∧
    (dcm_element_set_value_integer elemRowsLen4 512).1 = false ∧
    elemRowsLen4.vm = 0 ∧
    ((dcm_element_set_value_integer elemRowsLen4 512).2).vm = 1 ∧
    ((dcm_element_set_value_integer elemRowsLen4 512).2).assigned = false :=
  ⟨rfl, by decide, by decide, by decide, by decide⟩

-- ## C5

/-- C5 (code bug): when `dcm_dict_lookup_vr` is unknown, `dcm_element_create`
returns NULL but does not populate the caller's error object (this is the
only failure path in the file without a `dcm_error_set` call), contradicting
the documented error contract; on the success side the element is unassigned
with the dictionary VR and the provisional length rounded up to even (5
becomes 6 here). -/
theorem C5_create_unknown_tag_sets_no_error :
    dcm_dict_lookup_vr 0x00990011 = DcmVR.uk ∧
    dcm_element_create 0x00990011 0 = (none, none) ∧
    dcm_element_create 0x00280010 5 =
      (some (DcmElement.mk 0x00280010 .US 6 0 false .vNone), none) :=
  ⟨rfl, rfl, rfl⟩

-- ## C10

/-- C10: on an unlocked sequence `dcm_sequence_append` returns true
unconditionally -- the result of `create_sequence_item` is never checked, so
even when the item-wrapper allocation fails the function still returns true
and the failure is not reported through the return value. -/
theorem C10_append_returns_true (allocOk : Bool) (seq : DcmSequence)
    (item : DcmDataSet) (h : seq.is_locked = false) :
    (dcm_sequence_append allocOk seq item).1 = true := by
  cases allocOk <;>
    simp [dcm_sequence_append, create_sequence_item, h]

/-- Witness for C10 with a failing allocation oracle on a concrete unlocked
sequence. -/
theorem C10_witness :
    (DcmSequence.mk [] false).is_locked = false ∧
    (dcm_sequence_append false (DcmSequence.mk [] false)
      (DcmDataSet.mk [] false)).1 = true :=
  ⟨by decide,
   C10_append_returns_true false (DcmSequence.mk [] false)
     (DcmDataSet.mk [] false) (by decide)⟩

-- ## C2

/-- C2: `dcm_dataset_insert` fails with INVALID exactly when the set is
locked or an element with the same tag is already present; in either failure
case the provided element is destroyed and the data set (hence any existing
element) is unchanged; on success the element is contained under its tag,
it was not destroyed, and the count grows by exactly one. -/
theorem C2_dataset_insert (ds : DcmDataSet) (e : DcmElement) :
    ((dcm_dataset_insert ds e).ok = false ↔
      (ds.is_locked = true ∨ (dcm_dataset_contains ds e.tag).isSome = true)) ∧
    ((dcm_dataset_insert ds e).ok = false →
      (dcm_dataset_insert ds e).destroyed = true ∧
      (dcm_dataset_insert ds e).dataset = ds ∧
      ∃ err, (dcm_dataset_insert ds e).err = some err ∧
        err.code = DcmErrorCode.INVALID) ∧
    ((dcm_dataset_insert ds e).ok = true →
      (dcm_dataset_insert ds e).destroyed = false ∧
      dcm_dataset_contains (dcm_dataset_insert ds e).dataset e.tag = some e ∧
      dcm_dataset_count (dcm_dataset_insert ds e).dataset =
        dcm_dataset_count ds + 1) := by
  by_cases hl : ds.is_locked
  · refine ⟨by simp [dcm_dataset_insert, hl], ?_, ?_⟩
    · intro _
      exact ⟨by simp [dcm_dataset_insert, hl], by simp [dcm_dataset_insert, hl],
        ⟨⟨.INVALID, "Data Set is locked and cannot be modified",
          "Inserting Data Element into Data Set failed"⟩,
         by simp [dcm_dataset_insert, hl], rfl⟩⟩
    · intro h
      simp [dcm_dataset_insert, hl] at h
  · by_cases hc : (dcm_dataset_contains ds e.tag).isSome
    · refine ⟨by simp [dcm_dataset_insert, hl, hc], ?_, ?_⟩
      · intro _
        exact ⟨by simp [dcm_dataset_insert, hl, hc],
          by simp [dcm_dataset_insert, hl, hc],
          ⟨⟨.INVALID, "Element already exists",
            "Inserting Data Element into Data Set failed"⟩,
           by simp [dcm_dataset_insert, hl, hc], rfl⟩⟩
      · intro h
        simp [dcm_dataset_insert, hl, hc] at h
    · refine ⟨by simp [dcm_dataset_insert, hl, hc], ?_, ?_⟩
      · intro h
        simp [dcm_dataset_insert, hl, hc] at h
      · intro _
        refine ⟨by simp [dcm_dataset_insert, hl, hc], ?_, ?_⟩
        · have hfind : dcm_dataset_contains ds e.tag = none := by
            simpa [Option.not_isSome_iff_eq_none] using hc
          rw [dcm_dataset_contains] at hfind
          simp [dcm_dataset_insert, hl, hc, dcm_dataset_contains,
            List.find?_append, hfind]
        · simp [dcm_dataset_insert, hl, hc, dcm_dataset_count]

/-- Witness for C2: inserting a fresh element into the empty data set
succeeds, the element is then contained, and the count is 1. -/
theorem C2_witness :
    (dcm_dataset_insert dcm_dataset_create elemRowsAssigned).ok = true ∧
    (dcm_dataset_insert dcm_dataset_create elemRowsAssigned).destroyed =
      false ∧
    dcm_dataset_contains
      (dcm_dataset_insert dcm_dataset_create elemRowsAssigned).dataset
      elemRowsAssigned.tag = some elemRowsAssigned ∧
    dcm_dataset_count
      (dcm_dataset_insert dcm_dataset_create elemRowsAssigned).dataset =
      dcm_dataset_count dcm_dataset_create + 1 :=
  have h := (C2_dataset_insert dcm_dataset_create elemRowsAssigned).2.2 rfl
  ⟨rfl, h.1, h.2.1, h.2.2⟩

-- ## C6

/-- C6: `dcm_sequence_get` with an in-range index returns the i-th item,
locked in place (both the returned item and the stored one are locked
afterwards); with an out-of-range index it fails with INVALID, returns null
and leaves the sequence unchanged. -/
theorem C6_sequence_get (s : DcmSequence) (i : Nat) :
    (i < dcm_sequence_count s →
      ∃ d, (dcm_sequence_get s i).1 = some d ∧
        dcm_dataset_is_locked d = true ∧
        d = dcm_dataset_lock (s.items.getD i default) ∧
        ((dcm_sequence_get s i).2.1).items = s.items.set i d ∧
        (dcm_sequence_get s i).2.2 = none) ∧
    (dcm_sequence_count s ≤ i →
      (dcm_sequence_get s i).1 = none ∧
      (dcm_sequence_get s i).2.1 = s ∧
      ∃ err, (dcm_sequence_get s i).2.2 = some err ∧
        err.code = DcmErrorCode.INVALID) := by
  constructor
  · intro h
    have h' : ¬ i ≥ s.items.length := by
      simpa [dcm_sequence_count] using h
    refine ⟨dcm_dataset_lock (s.items.getD i default), ?_, ?_, rfl, ?_, ?_⟩
    · simp [dcm_sequence_get, h']
    · cases hgd : s.items.getD i default with
      | mk elems lk => simp [dcm_dataset_lock, dcm_dataset_is_locked]
    · simp [dcm_sequence_get, h']
    · simp [dcm_sequence_get, h']
  · intro h
    have h' : i ≥ s.items.length := by
      simpa [dcm_sequence_count] using h
    exact ⟨by simp [dcm_sequence_get, h'], by simp [dcm_sequence_get, h'],
      ⟨⟨.INVALID, "Getting item of Sequence failed",
        "Index exceeds length of sequence"⟩,
       by simp [dcm_sequence_get, h'], rfl⟩⟩

/-- Witness for C6: fetching item 0 of a one-item sequence returns the item
locked. -/
theorem C6_witness :
    0 < dcm_sequence_count (DcmSequence.mk [DcmDataSet.mk [] false] false) ∧
    ∃ d, (dcm_sequence_get (DcmSequence.mk [DcmDataSet.mk [] false] false)
        0).1 = some d ∧ dcm_dataset_is_locked d = true :=
  have h := (C6_sequence_get (DcmSequence.mk [DcmDataSet.mk [] false] false)
    0).1 (by decide)
  ⟨by decide, h.choose, h.choose_spec.1, h.choose_spec.2.1⟩

-- ## C8

/-- C8: for a Basic Offset Table successfully created from `offsets` and any
frame number `1 ≤ k ≤ num_frames`, `dcm_bot_get_frame_offset` returns
`offsets[k-1] + first_frame_offset`. -/
theorem C8_bot_frame_offset (offsets : List Int) (num_frames : Nat)
    (first : Int) (bot : DcmBOT) (k : Nat)
    (hb : (dcm_bot_create offsets num_frames first).1 = some bot)
    (h1 : 1 ≤ k) (h2 : k ≤ dcm_bot_get_num_frames bot) :
    dcm_bot_get_frame_offset bot k = offsets.getD (k - 1) 0 + first := by
  unfold dcm_bot_create at hb
  split_ifs at hb with ha hc
  obtain rfl : DcmBOT.mk offsets first = bot := by simpa using hb
  rfl

/-- Witness for C8 at the spec's concrete scenario: offsets [0, 100, 250],
first frame offset 12; frame 3 is at 250 + 12 = 262. -/
theorem C8_witness :
    (dcm_bot_create [0, 100, 250] 3 12).1 =
      some (DcmBOT.mk [0, 100, 250] 12) ∧
    1 ≤ 3 ∧ 3 ≤ dcm_bot_get_num_frames (DcmBOT.mk [0, 100, 250] 12) ∧
    dcm_bot_get_frame_offset (DcmBOT.mk [0, 100, 250] 12) 3 = 262 :=
  have h := C8_bot_frame_offset [0, 100, 250] 3 12
    (DcmBOT.mk [0, 100, 250] 12) 3 rfl (by decide) (by decide)
  ⟨rfl, by decide, by decide, by rw [h]; decide⟩

-- ## C4

/-- Below `2^31` the C comparator agrees with the numeric order: the 32-bit
difference only misrepresents the sign when it reaches `2^31`. -/
theorem tagOrder_iff_le (a b : Nat) (ha : a < 2 ^ 31) (hb : b < 2 ^ 31) :
    tagOrder a b ↔ a ≤ b := by
  have h31 : (2 : Nat) ^ 31 = 2147483648 := by norm_num
  rw [h31] at ha hb
  unfold tagOrder compare_tags
  simp only [show (2 : Nat) ^ 32 = 4294967296 from by norm_num,
    show (2 : Nat) ^ 31 = 2147483648 from by norm_num,
    show (2 : Int) ^ 32 = 4294967296 from by norm_num]
  split <;> rename_i hd <;> constructor <;> intro h <;> omega

theorem orderedInsert_small (x : Nat) (l : List Nat) (hx : x < 2 ^ 31)
    (hl : ∀ y ∈ l, y < 2 ^ 31) :
    l.orderedInsert tagOrder x = l.orderedInsert (· ≤ ·) x := by
  induction l with
  | nil => rfl
  | cons b t ih =>
    have hb : b < 2 ^ 31 := hl b (by simp)
    have ht : ∀ y ∈ t, y < 2 ^ 31 := fun y hy => hl y (by simp [hy])
    by_cases h : x ≤ b
    · rw [List.orderedInsert, List.orderedInsert,
        if_pos ((tagOrder_iff_le x b hx hb).mpr h), if_pos h]
    · rw [List.orderedInsert, List.orderedInsert,
        if_neg (fun hc => h ((tagOrder_iff_le x b hx hb).mp hc)), if_neg h,
        ih ht]

theorem insertionSort_small (l : List Nat) (hl : ∀ y ∈ l, y < 2 ^ 31) :
    List.insertionSort tagOrder l = List.insertionSort (· ≤ ·) l := by
  induction l with
  | nil => rfl
  | cons b t ih =>
    have hb : b < 2 ^ 31 := hl b (by simp)
    have ht : ∀ y ∈ t, y < 2 ^ 31 := fun y hy => hl y (by simp [hy])
    rw [List.insertionSort, List.insertionSort, ih ht,
      orderedInsert_small b _ hb]
    intro y hy
    exact ht y ((List.mem_insertionSort _).mp hy)

/-- C4 (amended): for `n ≤ count`, `copy_tags` returns a permutation of the
first `n` inserted tags; the result is strictly ascending provided all tags
are below `2^31` (and the tags are distinct, as they are in a data set).
The restriction is forced: `compare_tags` subtracts in 32-bit arithmetic and
misorders pairs whose unsigned difference is at least `2^31`
(`C4_counterexample`). -/
theorem C4_copy_tags_sorted (ds : DcmDataSet) (n : Nat)
    (hn : n ≤ dcm_dataset_count ds)
    (hsmall : ∀ e ∈ ds.elements, e.tag < 2 ^ 31)
    (hnd : (ds.elements.map DcmElement.tag).Nodup) :
    (dcm_dataset_copy_tags ds n).Pairwise (· < ·) ∧
    List.Perm (dcm_dataset_copy_tags ds n) ((ds.elements.map DcmElement.tag).take n) := by
  unfold dcm_dataset_copy_tags
  have hsmall' : ∀ y ∈ (ds.elements.map DcmElement.tag).take n, y < 2 ^ 31 := by
    intro y hy
    have hy' : y ∈ ds.elements.map DcmElement.tag :=
      List.mem_of_mem_take hy
    obtain ⟨e, he, rfl⟩ := List.mem_map.mp hy'
    exact hsmall e he
  rw [insertionSort_small _ hsmall']
  have hperm := List.perm_insertionSort (· ≤ · : Nat → Nat → Prop)
    ((ds.elements.map DcmElement.tag).take n)
  refine ⟨?_, hperm⟩
  have hsorted := List.sorted_insertionSort (· ≤ · : Nat → Nat → Prop)
    ((ds.elements.map DcmElement.tag).take n)
  have hndtake : ((ds.elements.map DcmElement.tag).take n).Nodup :=
    hnd.sublist (List.take_sublist n _)
  have hndsort : (List.insertionSort (· ≤ · : Nat → Nat → Prop)
      ((ds.elements.map DcmElement.tag).take n)).Nodup :=
    hperm.nodup_iff.mpr hndtake
  exact (hsorted.and hndsort).imp fun h => lt_of_le_of_ne h.1 h.2

/-- A data set holding PatientName and the standard high-group tag
(FFFC,FFFC) DataSetTrailingPadding, built by two successful inserts of
created elements. -/
def dsHighTags : DcmDataSet :=
  DcmDataSet.mk [DcmElement.mk 0x00100010 .PN 0 0 false .vNone,
                 DcmElement.mk 0xFFFCFFFC .OB 0 0 false .vNone] false

/-- C4 counterexample: both tags are valid dictionary tags, the data set is
reachable by two inserts, `2 ≤ count`, yet `copy_tags` puts 0xFFFCFFFC first
because `compare_tags` misreads the 32-bit difference as negative, so the
output is not ascending. -/
theorem C4_counterexample :
    (dcm_dataset_insert
      (dcm_dataset_insert dcm_dataset_create
        (DcmElement.mk 0x00100010 .PN 0 0 false .vNone)).dataset
      (DcmElement.mk 0xFFFCFFFC .OB 0 0 false .vNone)).dataset = dsHighTags ∧
    2 ≤ dcm_dataset_count dsHighTags ∧
    dcm_dataset_copy_tags dsHighTags 2 = [0xFFFCFFFC, 0x00100010] ∧
    ¬ (dcm_dataset_copy_tags dsHighTags 2).Pairwise (· < ·) := by
  refine ⟨rfl, by decide, by decide, by decide⟩

/-- A data set with two low tags for the C4 witness. -/
def dsLowTags : DcmDataSet :=
  DcmDataSet.mk [DcmElement.mk 0x00280010 .US 0 0 false .vNone,
                 DcmElement.mk 0x00100010 .PN 0 0 false .vNone] false

/-- Witness for C4 on tags below `2^31`: the output is strictly ascending and
a permutation of the first two inserted tags. -/
theorem C4_witness :
    2 ≤ dcm_dataset_count dsLowTags ∧
    (dcm_dataset_copy_tags dsLowTags 2).Pairwise (· < ·) ∧
    List.Perm (dcm_dataset_copy_tags dsLowTags 2)
      ((dsLowTags.elements.map DcmElement.tag).take 2) :=
  have h := C4_copy_tags_sorted dsLowTags 2 (by decide) (by decide) (by decide)
  ⟨by decide, h.1, h.2⟩


-- ## C7

theorem dcm_element_validate_true (x e' : DcmElement)
    (h : dcm_element_validate x = (true, e')) :
    e' = x.withAssigned true ∧ x.assigned = false ∧
    x.vr = dcm_dict_lookup_vr x.tag := by
  rcases dcm_element_validate_spec x with hv | ⟨h1, h2, hv⟩
  · rw [hv] at h; simp at h
  · rw [hv] at h
    simp only [Prod.mk.injEq, true_and] at h
    exact ⟨h.symm, h1, h2⟩

/-- The multi-value string setter called with the split values: a successful
call stores the `vs.length` values, records the summed length (for a
previously zero length) and makes each value retrievable by index. -/
theorem set_value_string_multi_true_spec (e : DcmElement) (vs : List String)
    (e' : DcmElement)
    (hk : dcm_dict_vr_class e.vr = DcmVRClass.STRING_MULTI)
    (hlen : e.length = 0)
    (h : dcm_element_set_value_string_multi e vs vs.length true = (true, e')) :
    e'.vm = vs.length ∧
    e'.length =
      (if ((vs.map strlen).sum + (vs.length - 1)) % 2 ≠ 0 then
        (vs.map strlen).sum + (vs.length - 1) + 1
      else (vs.map strlen).sum + (vs.length - 1)) ∧
    (∀ i, i < vs.length →
      dcm_element_get_value_string e' i = vs.get? i) := by
  have hstr : element_check_string e = true := by
    simp [element_check_string, hk]
  by_cases hna : element_check_not_assigned e = true
  · by_cases hvm : vs.length = 1
    · obtain ⟨p, rfl⟩ := List.length_eq_one.mp hvm
      simp only [dcm_element_set_value_string_multi, hna, hstr,
        Bool.true_eq_false, if_false, List.length_cons, List.length_nil,
        Nat.zero_add, if_true, List.headD_cons, List.take_succ_cons,
        List.take_nil, List.map_cons, List.map_nil, List.sum_cons,
        List.sum_nil, Nat.add_zero, gt_iff_lt, Nat.lt_irrefl] at h
      obtain ⟨rfl, hxa, hxvr⟩ := dcm_element_validate_true _ e' h
      refine ⟨by simp, ?_, ?_⟩
      · rw [DcmElement.withAssigned_length,
          element_set_length_of_zero _ _ (by simp [hlen])]
        simp
      · intro i hi
        have hi0 : i = 0 := by simpa using hi
        subst hi0
        simp [dcm_element_get_value_string, element_check_assigned,
          element_check_string, element_check_index, hk]
    · simp only [dcm_element_set_value_string_multi, hna, hstr,
        Bool.true_eq_false, if_false, hvm, List.take_length, gt_iff_lt,
        hk, ne_eq, not_true_eq_false] at h
      obtain ⟨rfl, hxa, hxvr⟩ := dcm_element_validate_true _ e' h
      have hsep : (if 1 < vs.length then vs.length - 1 else 0) =
          vs.length - 1 := by
        split <;> omega
      refine ⟨by simp, ?_, ?_⟩
      · rw [DcmElement.withAssigned_length,
          element_set_length_of_zero _ _ (by simp [hlen])]
        rw [hsep]
      · intro i hi
        simp [dcm_element_get_value_string, element_check_assigned,
          element_check_string, element_check_index, hk, hvm, hi]
  · have hna' : element_check_not_assigned e = false := by
      simpa using hna
    rw [dcm_element_set_value_string_multi, if_pos hna'] at h
    simp at h

/-- C7 (amended): for a STRING_MULTI element whose recorded length is still
zero (no provisional length from a header), a successful `set_string` splits
the value on the backslash separator into `vm` values, records length = sum
of the value byte lengths plus `vm - 1` separators rounded up to even, and
each value is retrievable by index through `get_string`.  (When the element
was created with a nonzero provisional length the computed length is NOT
recorded, because `element_set_length` never overwrites it:
`C7_counterexample`.) -/
theorem C7_set_string_splits (e : DcmElement) (s : String) (e' : DcmElement)
    (hk : dcm_dict_vr_class e.vr = DcmVRClass.STRING_MULTI)
    (hlen : e.length = 0)
    (h : dcm_element_set_value_string e s = (true, e')) :
    e'.vm = (dcm_parse_character_string s).1.length ∧
    e'.length =
      (if (((dcm_parse_character_string s).1.map strlen).sum +
            ((dcm_parse_character_string s).1.length - 1)) % 2 ≠ 0 then
        ((dcm_parse_character_string s).1.map strlen).sum +
          ((dcm_parse_character_string s).1.length - 1) + 1
      else
        ((dcm_parse_character_string s).1.map strlen).sum +
          ((dcm_parse_character_string s).1.length - 1)) ∧
    (∀ i, i < (dcm_parse_character_string s).1.length →
      dcm_element_get_value_string e' i =
        (dcm_parse_character_string s).1.get? i) := by
  have hstr : element_check_string e = true := by
    simp [element_check_string, hk]
  by_cases hna : element_check_not_assigned e = true
  · rw [dcm_element_set_value_string, element_set_value_string,
      if_neg (by simp [hna]), if_neg (by simp [hstr]), if_pos hk] at h
    have h' : dcm_element_set_value_string_multi e
        (dcm_parse_character_string s).1
        (dcm_parse_character_string s).1.length true = (true, e') := h
    exact set_value_string_multi_true_spec e
      (dcm_parse_character_string s).1 e' hk hlen h'
  · have hna' : element_check_not_assigned e = false := by
      simpa using hna
    rw [dcm_element_set_value_string, element_set_value_string,
      if_pos hna'] at h
    simp at h

/-- PatientName (VR PN, STRING_MULTI) created with provisional length 0. -/
def elemPatientName : DcmElement :=
  DcmElement.mk 0x00100010 .PN 0 0 false .vNone

/-- `elemPatientName` after `set_string "Doe^John\Smith^Jane"`. -/
def pnResult : DcmElement :=
  (dcm_element_set_value_string elemPatientName ("Doe^John\\Smith^Jane")).2

/-- Witness for C7 at the spec's concrete scenario: tag 0x00100010 set to
"Doe^John\Smith^Jane" gives vm = 2, the two values by index, and length
8 + 1 + 10 = 19 rounded up to 20. -/
theorem C7_witness :
    dcm_dict_vr_class elemPatientName.vr = DcmVRClass.STRING_MULTI ∧
    elemPatientName.length = 0 ∧
    (dcm_element_set_value_string elemPatientName
      ("Doe^John\\Smith^Jane")).1 = true ∧
    pnResult.vm = 2 ∧ pnResult.length = 20 ∧
    dcm_element_get_value_string pnResult 0 = some ("Doe^John") ∧
    dcm_element_get_value_string pnResult 1 = some ("Smith^Jane") := by
  have h := C7_set_string_splits elemPatientName ("Doe^John\\Smith^Jane")
    pnResult (by decide) (by decide) (by rfl)
  refine ⟨by decide, by decide, by rfl, ?_, ?_, ?_, ?_⟩
  · rw [h.1]; rfl
  · rw [h.2.1]; rfl
  · rw [h.2.2 0 (by decide)]; rfl
  · rw [h.2.2 1 (by decide)]; rfl

/-- PatientName created with a nonzero provisional length 6. -/
def elemPatientNameLen6 : DcmElement :=
  DcmElement.mk 0x00100010 .PN 6 0 false .vNone

/-- C7 counterexample: with a nonzero provisional length 6, the same
`set_string` succeeds with vm = 2 but the recorded length stays 6, not the
claimed sum-of-values 19 rounded to 20 -- `element_set_length` never
overwrites a nonzero length. -/
theorem C7_counterexample :
    (dcm_element_create 0x00100010 6).1 = some elemPatientNameLen6 ∧
    (dcm_element_set_value_string elemPatientNameLen6
      ("Doe^John\\Smith^Jane")).1 = true ∧
    ((dcm_element_set_value_string elemPatientNameLen6
      ("Doe^John\\Smith^Jane")).2).vm = 2 ∧
    ((dcm_element_set_value_string elemPatientNameLen6
      ("Doe^John\\Smith^Jane")).2).length = 6 ∧
    ((dcm_element_set_value_string elemPatientNameLen6
      ("Doe^John\\Smith^Jane")).2).length ≠ 20 :=
  ⟨rfl, rfl, rfl, rfl, by decide⟩

-- ## C9

/-- An assigned Rows element (US, value 512, length 2). -/
def itemElemRows : DcmElement :=
  DcmElement.mk 0x00280010 .US 2 1 true (.vInt 512)

/-- An assigned SEQUENCE element (tag 0x00082218) holding one unlocked item
that contains `itemElemRows`. -/
def seqElemNested : DcmElement :=
  DcmElement.mk 0x00082218 .SQ 2 1 true
    (.vSeq (.mk [.mk [itemElemRows] false] false))

/-- C9 (code bug): `dcm_element_clone` on a sequence-valued element does
mutate the original -- the sequence is fetched through the locking getter and
every item through the locking `dcm_sequence_get`, so the original's sequence
and all its items end up locked -- but the "successful clone" the claim
speaks of is impossible: `dcm_element_set_value_sequence` has already marked
the clone assigned, and the final re-validation at the end of
`dcm_element_clone` rejects assigned elements, so the clone of a SEQUENCE
element always returns null.  Evaluated at a concrete sequence element: the
clone is null, yet the original's sequence and its item have been locked (the
original is no longer mutable even though only a copy was requested). -/
theorem C9_clone_of_sequence_locks_original_and_fails :
    seqElemNested.value =
      DcmValue.vSeq (.mk [.mk [itemElemRows] false] false) ∧
    (dcm_element_clone seqElemNested).1 = none ∧
    (dcm_element_clone seqElemNested).2 =
      DcmElement.mk 0x00082218 .SQ 2 1 true
        (.vSeq (.mk [.mk [itemElemRows] true] true)) :=
  ⟨rfl, rfl, rfl⟩
